import Mathlib

/-!
Verification development for the HealthBridge Image Management System.

The development embeds the data model and the state-changing operations of
the four components (Identity & Access, Clinical Workflow, Billing
Reconciliation, Workflow Audit Log) as executable Lean definitions and
proves the testable properties of the specification against them.

Source basis: the client service layer (`client/src/services/*.js`), the
client components (`client/src/components/*.jsx`), the SQLAlchemy model
declarations and route fragments quoted in the repository's analysis
documents.  Backend route bodies that are not part of the repository
snapshot are modelled from the specification; each such definition carries
a doc comment starting with `Modelled from the spec:`.
-/

namespace HealthBridge

/-! ## Identity & Access data model

From `server/services/user-patient-service/app/models.py` as quoted in the
storage analysis: the `users` table has `user_id`, `name`, `email` (unique
contact key), `password_hash`, `is_active` (default true) and a
`user_type` discriminator. -/

inductive UserType where
  | patient
  | staff
deriving DecidableEq, Repr

structure User where
  userId : Nat
  name : String
  email : String
  passwordHash : String
  isActive : Bool
  userType : UserType
deriving DecidableEq, Repr

/-- Authentication/authorization failures (spec §7 `AuthError`):
credential mismatch (HTTP 401), deactivated account (HTTP 403),
invalid token signature, expired token. -/
inductive AuthError where
  | invalidCredentials
  | accountDeactivated
  | invalidToken
  | tokenExpired
deriving DecidableEq, Repr

/-- Registration failure (spec §4.1 `ValidationError`): duplicate contact key. -/
inductive ValidationError where
  | duplicateEmail
deriving DecidableEq, Repr

/-- State of the Identity & Access component: the `users` table, the
auto-increment counter for `user_id`, and the JWT signing secret
(`SECRET_KEY` in `auth.py`). -/
structure AuthState where
  users : List User
  nextUserId : Nat
  secret : Nat
deriving DecidableEq, Repr

/-- Lookup by contact key: `db.query(models.User).filter(models.User.email == ...).first()`. -/
def find_user_by_email (s : AuthState) (email : String) : Option User :=
  s.users.find? (fun u => u.email == email)

/-- Modelled from the spec: the credential-store collaborator (§6),
`hash(secret) → digest`.  The concrete bcrypt implementation in
`auth.py` is absent from the snapshot; the model keeps the contract
that `verify(secret, digest)` holds exactly for `digest = hash(secret)`. -/
def hash_password (password : String) : String :=
  "bcrypt$" ++ password

/-- Modelled from the spec: the credential-store collaborator (§6),
`verify(secret, digest) → bool`. -/
def verify_password (plain hashed : String) : Bool :=
  hash_password plain == hashed

/-- Token expiry window, spec §4.1: fixed window of 30 minutes. -/
def ACCESS_TOKEN_EXPIRE_MINUTES : Nat := 30

/-- Modelled from the spec: the JWT signature (`jwt.encode` with
`SECRET_KEY` in `auth.py`, quoted in the method-invocation analysis).
The signature is a function of the secret and of the payload fields only. -/
def signToken (secret sub : Nat) (ut : UserType) (exp : Nat) : Nat :=
  secret * 1000003 + sub * 1009 + (match ut with | .patient => 0 | .staff => 1) * 101 + exp

/-- A signed bearer token: claims `{sub = identity id, user_type}`, an
expiry, and the signature over them. -/
structure Token where
  sub : Nat
  userType : UserType
  exp : Nat
  sig : Nat
deriving DecidableEq, Repr

/-- `create_access_token` (`auth.py`, quoted): encode the claims and sign
them with `SECRET_KEY`. -/
def create_access_token (secret sub : Nat) (ut : UserType) (exp : Nat) : Token :=
  { sub := sub, userType := ut, exp := exp, sig := signToken secret sub ut exp }

/-- `verify_token` (`auth.py`, quoted): `jwt.decode(token, SECRET_KEY, ...)`
checks the signature and the expiry and returns `int(payload.get("sub"))`.
It reads no other server state. -/
def verify_token (secret now : Nat) (t : Token) : Except AuthError Nat :=
  if t.sig == signToken secret t.sub t.userType t.exp then
    if now < t.exp then .ok t.sub else .error .tokenExpired
  else .error .invalidToken

/-- The verify route applied to the component state: only the signing
secret is consulted, matching the stateless `verify_token`. -/
def verify_token_route (s : AuthState) (now : Nat) (t : Token) : Except AuthError Nat :=
  verify_token s.secret now t

/-- Modelled from the spec: the login route body
(`routes.py` of the user-patient service).  Its selection logic is quoted
in the integration analysis:
`if not user or not verify_password(credentials.password, user.password_hash): 401`
then `if not user.is_active: 403`; on success
`create_access_token(data={"sub": str(user.user_id), "user_type": ...})`. -/
def login_user (s : AuthState) (now : Nat) (email password : String) :
    Except AuthError Token :=
  match find_user_by_email s email with
  | none => .error .invalidCredentials
  | some user =>
    if verify_password password user.passwordHash then
      if user.isActive then
        .ok (create_access_token s.secret user.userId user.userType
              (now + ACCESS_TOKEN_EXPIRE_MINUTES * 60))
      else .error .accountDeactivated
    else .error .invalidCredentials

/-- Modelled from the spec: the patient-registration route
(`POST /api/v1/patients/`): creates the identity row with the hashed
credential, active by default, failing with `ValidationError` on a
duplicate contact key (spec §4.1). -/
def register_patient (s : AuthState) (name email password : String) :
    Except ValidationError (AuthState × Nat) :=
  match find_user_by_email s email with
  | some _ => .error .duplicateEmail
  | none =>
    let uid := s.nextUserId
    let u : User :=
      { userId := uid, name := name, email := email,
        passwordHash := hash_password password, isActive := true,
        userType := .patient }
    .ok ({ s with users := s.users ++ [u], nextUserId := uid + 1 }, uid)

/-- Modelled from the spec: the activate/deactivate routes
(`PUT /api/v1/users/{user_id}/activate` and `/deactivate`): toggle the
`is_active` flag of the identified user. -/
def set_active (s : AuthState) (uid : Nat) (b : Bool) : AuthState :=
  { s with users := s.users.map (fun u => if u.userId == uid then { u with isActive := b } else u) }

/-! ## Clinical Workflow data model

From `server/services/diagnosis-workflow-service/app/models.py` as quoted
in the storage analysis: enums `ScanType`, `TestStatus`, `ReportStatus`,
`AppointmentStatus`; tables `medical_tests`, `diagnosis_reports`,
`appointments`.  All cross-entity ids are plain integers with no
foreign-key constraint. -/

inductive ScanType where
  | abdominalUltrasound
  | ctScan
  | mriScan
  | petScan
deriving DecidableEq, Repr

inductive TestStatus where
  | scanToBeTaken
  | scanInProgress
  | scanDone
deriving DecidableEq, Repr

inductive ReportStatus where
  | pending
  | finalized
deriving DecidableEq, Repr

inductive AppointmentStatus where
  | scheduled
  | completed
  | cancelled
  | noShow
deriving DecidableEq, Repr

structure Appointment where
  appointmentId : Nat
  patientId : Nat
  doctorId : Nat
  status : AppointmentStatus
deriving DecidableEq, Repr

/-- `medical_tests` row: `status` defaults to `SCAN_TO_BE_TAKEN`;
`radiologist_id`, `appointment_id`, `report_id`, `image_id` are nullable. -/
structure MedicalTest where
  testId : Nat
  patientId : Nat
  doctorId : Nat
  radiologistId : Option Nat
  appointmentId : Option Nat
  testType : ScanType
  status : TestStatus
  reportId : Option Nat
  imageId : Option Nat
deriving DecidableEq, Repr

/-- `diagnosis_reports` row: `status` defaults to `PENDING`; the text
fields and `image_id` are nullable. -/
structure DiagnosisReport where
  reportId : Nat
  patientId : Nat
  staffId : Nat
  imageId : Option Nat
  findings : Option String
  diagnosis : Option String
  recommendations : Option String
  status : ReportStatus
deriving DecidableEq, Repr

/-- State of the Clinical Workflow component: the `appointments`,
`medical_tests` and `diagnosis_reports` tables with their auto-increment
counters. -/
structure WorkflowStore where
  appointments : List Appointment
  tests : List MedicalTest
  reports : List DiagnosisReport
  nextTestId : Nat
  nextReportId : Nat
deriving DecidableEq, Repr

/-- Lookup of a test by primary key. -/
def find_test (s : WorkflowStore) (tid : Nat) : Option MedicalTest :=
  s.tests.find? (fun t => t.testId == tid)

/-- Lookup of a report by primary key (`GET /api/v1/reports/{report_id}`). -/
def find_report (s : WorkflowStore) (rid : Nat) : Option DiagnosisReport :=
  s.reports.find? (fun r => r.reportId == rid)

/-- In-place row update of the test with the given id, leaving the other
rows unchanged (the SQLAlchemy modify-then-commit pattern). -/
def update_tests (l : List MedicalTest) (tid : Nat) (f : MedicalTest → MedicalTest) :
    List MedicalTest :=
  l.map (fun t => if t.testId == tid then f t else t)

/-- In-place row update of the report with the given id. -/
def update_reports (l : List DiagnosisReport) (rid : Nat)
    (f : DiagnosisReport → DiagnosisReport) : List DiagnosisReport :=
  l.map (fun r => if r.reportId == rid then f r else r)

/-- The `MedicalTestUpdate` request schema: every field optional, only
the provided fields are applied ("update only provided fields", quoted in
the integration analysis §2.4).  A provided `none` clears a nullable
column (the client sends `image_id: null` on image deletion). -/
structure MedicalTestUpdate where
  testType : Option ScanType := none
  radiologistId : Option (Option Nat) := none
  status : Option TestStatus := none
  imageId : Option (Option Nat) := none
deriving DecidableEq, Repr

def apply_test_update (u : MedicalTestUpdate) (t : MedicalTest) : MedicalTest :=
  { t with
    testType := u.testType.getD t.testType
    radiologistId := u.radiologistId.getD t.radiologistId
    status := u.status.getD t.status
    imageId := u.imageId.getD t.imageId }

/-- Modelled from the spec: the test-update route
(`PUT /api/v1/tests/{test_id}`, wrapped by `testService.updateTest`):
applies the provided fields of the update payload to the identified row;
status values are caller-supplied with no transition restriction
(spec §3: "monotonic in intended use but not mechanically enforced"). -/
def updateTest (s : WorkflowStore) (tid : Nat) (u : MedicalTestUpdate) : WorkflowStore :=
  { s with tests := update_tests s.tests tid (apply_test_update u) }

/-- Modelled from the spec: the test-creation route
(`POST /api/v1/tests/`, wrapped by `testService.createTest`); the client
payload (`handleCreateTest`) carries patient id, doctor id, scan type and
optional radiologist; the row defaults set `status = SCAN_TO_BE_TAKEN`
and leave `report_id` and `image_id` null. -/
def createTest (s : WorkflowStore) (patientId doctorId : Nat) (testType : ScanType)
    (radiologistId appointmentId : Option Nat) : WorkflowStore × Nat :=
  let t : MedicalTest :=
    { testId := s.nextTestId, patientId := patientId, doctorId := doctorId,
      radiologistId := radiologistId, appointmentId := appointmentId,
      testType := testType, status := .scanToBeTaken,
      reportId := none, imageId := none }
  ({ s with tests := s.tests ++ [t], nextTestId := s.nextTestId + 1 }, s.nextTestId)

/-- `handleUpload` (`RadiologistTestsView.jsx`, lines 284-288): after the
image-storage collaborator returns the new image id, the client records it
on the test and performs the status transition in one update:
`updateTest(test.test_id, { image_id: uploadResponse.image_id, status: SCAN_IN_PROGRESS })`. -/
def handleUpload (s : WorkflowStore) (tid imageId : Nat) : WorkflowStore :=
  updateTest s tid { imageId := some (some imageId), status := some .scanInProgress }

/-- `handleStatusChange` (`RadiologistTestsView.jsx`, lines 335-348, used
with `SCAN_DONE`): a status-only update. -/
def markScanDone (s : WorkflowStore) (tid : Nat) : WorkflowStore :=
  updateTest s tid { status := some .scanDone }

/-- Python truthiness of an optional string: `None` and `""` are falsy. -/
def py_truthy : Option String → Bool
  | none => false
  | some s => !s.isEmpty

/-- The report-status selection quoted in the integration analysis §2.4:
`status = models.ReportStatus.FINALIZED if (findings or diagnosis) else models.ReportStatus.PENDING`. -/
def report_status_for (findings diagnosis : Option String) : ReportStatus :=
  if py_truthy findings || py_truthy diagnosis then .finalized else .pending

/-- Modelled from the spec: the report-generation route
(`POST /api/v1/tests/{test_id}/generate-report`, wrapped by
`testService.generateReport`).  Accepted whenever an image id is present
on the test (spec §4.2); if the test already carries a report id the
existing report row is updated, otherwise one report row is created and
its id recorded on the test ("re-invoking it updates rather than
duplicates").  The report status follows the quoted selection line. -/
def generateReport (s : WorkflowStore) (tid staffId : Nat)
    (findings diagnosis : Option String) : WorkflowStore :=
  match find_test s tid with
  | none => s
  | some t =>
    match t.imageId with
    | none => s
    | some _ =>
      match t.reportId with
      | some rid =>
        { s with reports := update_reports s.reports rid (fun r =>
            { r with findings := findings, diagnosis := diagnosis,
                     status := report_status_for findings diagnosis }) }
      | none =>
        let rid := s.nextReportId
        let rep : DiagnosisReport :=
          { reportId := rid, patientId := t.patientId, staffId := staffId,
            imageId := t.imageId, findings := findings, diagnosis := diagnosis,
            recommendations := none,
            status := report_status_for findings diagnosis }
        { s with
          reports := s.reports ++ [rep],
          nextReportId := rid + 1,
          tests := update_tests s.tests tid (fun t0 => { t0 with reportId := some rid }) }

/-- The report id currently recorded on a test, if the test exists. -/
def testReportId (s : WorkflowStore) (tid : Nat) : Option (Option Nat) :=
  (find_test s tid).map (fun t => t.reportId)

/-- Number of report rows carrying the given report id. -/
def countReportsWith (s : WorkflowStore) (rid : Nat) : Nat :=
  (s.reports.filter (fun r => r.reportId == rid)).length

/-- The state-changing Clinical Workflow operations on tests, as exposed
through the service layer and the client components. -/
inductive WorkflowOp where
  | createTest (patientId doctorId : Nat) (testType : ScanType)
      (radiologistId appointmentId : Option Nat)
  | updateTest (tid : Nat) (u : MedicalTestUpdate)
  | uploadImage (tid imageId : Nat)
  | markScanDone (tid : Nat)
  | generateReport (tid staffId : Nat) (findings diagnosis : Option String)

def applyOp (op : WorkflowOp) (s : WorkflowStore) : WorkflowStore :=
  match op with
  | .createTest p d ty r a => (createTest s p d ty r a).1
  | .updateTest tid u => updateTest s tid u
  | .uploadImage tid img => handleUpload s tid img
  | .markScanDone tid => markScanDone s tid
  | .generateReport tid staffId f d => generateReport s tid staffId f d

/-! ## Billing Reconciliation data model

From `server/services/financial-service/app/models.py` as quoted in the
storage analysis (`billing_details`): `billing_id`, `patient_id`,
`appointment_id` (nullable, no foreign key), `procedure`, `base_cost`,
`status` (default `UNPAID`), `report_id` (nullable). -/

inductive BillingStatus where
  | unpaid
  | pending
  | paid
  | overdue
  | cancelled
deriving DecidableEq, Repr

structure BillingDetails where
  billingId : Nat
  patientId : Nat
  appointmentId : Option Nat
  procedureDesc : String
  baseCost : Rat
  status : BillingStatus
  reportId : Option Nat
deriving DecidableEq, Repr

/-- State of the Billing Reconciliation component: the `billing_details`
table with its auto-increment counter. -/
structure BillingStore where
  bills : List BillingDetails
  nextBillingId : Nat
deriving DecidableEq, Repr

/-- Lookup of a bill by primary key (`GET /api/v1/billing/{billing_id}`,
wrapped by `billingService.getBilling`). -/
def getBilling (bs : BillingStore) (bid : Nat) : Option BillingDetails :=
  bs.bills.find? (fun b => b.billingId == bid)

/-- Modelled from the spec: the bill-creation route
(`POST /api/v1/billing/`, wrapped by `billingService.createBilling`):
inserts the row with initial status `unpaid`; no validation that the
given `appointment_id` exists (spec §4.3, weak-reference policy).  The
Clinical Workflow store is not consulted at all. -/
def createBilling (bs : BillingStore) (patientId : Nat) (appointmentId : Option Nat)
    (procedureDesc : String) (cost : Rat) : BillingStore × Nat :=
  let b : BillingDetails :=
    { billingId := bs.nextBillingId, patientId := patientId,
      appointmentId := appointmentId, procedureDesc := procedureDesc,
      baseCost := cost, status := .unpaid, reportId := none }
  ({ bills := bs.bills ++ [b], nextBillingId := bs.nextBillingId + 1 }, bs.nextBillingId)

/-- The `BillingDetailsUpdate` request schema: every field optional, only
the provided fields are applied. -/
structure BillingUpdate where
  appointmentId : Option (Option Nat) := none
  procedureDesc : Option String := none
  baseCost : Option Rat := none
  status : Option BillingStatus := none
deriving DecidableEq, Repr

def apply_billing_update (u : BillingUpdate) (b : BillingDetails) : BillingDetails :=
  { b with
    appointmentId := u.appointmentId.getD b.appointmentId
    procedureDesc := u.procedureDesc.getD b.procedureDesc
    baseCost := u.baseCost.getD b.baseCost
    status := u.status.getD b.status }

/-- Modelled from the spec: the bill-update route
(`PUT /api/v1/billing/{billing_id}`, wrapped by
`billingService.updateBilling`): applies the provided fields; any status
may transition to any other status, and nothing guards the cost of a
paid bill (spec §4.3 and §9: the paid-cost invariant is "not currently
mechanically enforced"). -/
def updateBilling (bs : BillingStore) (bid : Nat) (u : BillingUpdate) : BillingStore :=
  { bs with bills := bs.bills.map (fun b => if b.billingId == bid then apply_billing_update u b else b) }

/-- Modelled from the spec: the pay route
(`PUT /api/v1/billing/{billing_id}/pay`, wrapped by
`billingService.markAsPaid`): a status-only transition to `paid`. -/
def markAsPaid (bs : BillingStore) (bid : Nat) : BillingStore :=
  updateBilling bs bid { status := some .paid }

/-- The cost currently stored for a bill, if the bill exists. -/
def billCost (bs : BillingStore) (bid : Nat) : Option Rat :=
  (getBilling bs bid).map (fun b => b.baseCost)

/-! ## Concrete sample states

Used by the witness and counterexample theorems. -/

/-- A workflow store holding one test of patient 10 by doctor 20,
awaiting its scan (no image, no report). -/
def sampleTestToBeTaken : MedicalTest :=
  { testId := 1, patientId := 10, doctorId := 20, radiologistId := some 30,
    appointmentId := some 5, testType := .ctScan, status := .scanToBeTaken,
    reportId := none, imageId := none }

def sampleStore : WorkflowStore :=
  { appointments := [{ appointmentId := 5, patientId := 10, doctorId := 20, status := .scheduled }],
    tests := [sampleTestToBeTaken], reports := [], nextTestId := 2, nextReportId := 1 }

/-- The same store after the radiologist uploaded image 7: the test is
in progress with image 7 attached. -/
def sampleStoreInProgress : WorkflowStore := handleUpload sampleStore 1 7

/-- A workflow store holding one completed test (status `Scan Done`,
image 5 attached). -/
def sampleStoreDone : WorkflowStore :=
  { appointments := [],
    tests := [{ testId := 1, patientId := 10, doctorId := 20, radiologistId := some 30,
                appointmentId := none, testType := .mriScan, status := .scanDone,
                reportId := none, imageId := some 5 }],
    reports := [], nextTestId := 2, nextReportId := 1 }

/-- A billing store holding one paid bill of 150.00 for patient 10. -/
def samplePaidBill : BillingDetails :=
  { billingId := 1, patientId := 10, appointmentId := some 5,
    procedureDesc := "CT Scan", baseCost := 150, status := .paid, reportId := none }

def samplePaidStore : BillingStore :=
  { bills := [samplePaidBill], nextBillingId := 2 }

/-- An empty billing store. -/
def emptyBillingStore : BillingStore := { bills := [], nextBillingId := 1 }

/-- An identity store holding one registered but deactivated patient
(user 1, contact key `ana@example.com`, credential `pw1`). -/
def sampleDeactivatedAuth : AuthState :=
  { users := [{ userId := 1, name := "Ana", email := "ana@example.com",
                passwordHash := hash_password "pw1", isActive := false,
                userType := .patient }],
    nextUserId := 2, secret := 42 }

/-- An empty identity store. -/
def emptyAuth : AuthState := { users := [], nextUserId := 1, secret := 42 }

/-! ## Helper lemmas -/

/-- `find?` over a pointwise-rewritten list, when the rewrite does not
change the predicate's verdict on any element. -/
theorem find?_map_pred {α : Type} (g : α → α) (p : α → Bool)
    (h : ∀ a, p (g a) = p a) (l : List α) :
    (l.map g).find? p = (l.find? p).map g := by
  rw [List.find?_map]
  have hpg : p ∘ g = p := funext h
  rw [hpg]

/-- `filter` length over a pointwise-rewritten list, when the rewrite does
not change the predicate's verdict on any element. -/
theorem length_filter_map_pred {α : Type} (g : α → α) (p : α → Bool)
    (h : ∀ a, p (g a) = p a) (l : List α) :
    ((l.map g).filter p).length = (l.filter p).length := by
  rw [List.filter_map, List.length_map]
  have hpg : p ∘ g = p := funext h
  rw [hpg]

/-- A row update targeted at one test id does not change any `testId`, so
lookups commute with it. -/
theorem update_tests_find? (l : List MedicalTest) (tid tid' : Nat)
    (f : MedicalTest → MedicalTest) (hf : ∀ t, (f t).testId = t.testId) :
    (update_tests l tid f).find? (fun t => t.testId == tid')
      = (l.find? (fun t => t.testId == tid')).map
          (fun t => if t.testId == tid then f t else t) := by
  unfold update_tests
  apply find?_map_pred
  intro a
  by_cases h : (a.testId == tid) = true
  · simp [h, hf]
  · simp [h]

/-- A row update targeted at one report id does not change any `reportId`,
so lookups commute with it. -/
theorem update_reports_find? (l : List DiagnosisReport) (rid rid' : Nat)
    (f : DiagnosisReport → DiagnosisReport) (hf : ∀ r, (f r).reportId = r.reportId) :
    (update_reports l rid f).find? (fun r => r.reportId == rid')
      = (l.find? (fun r => r.reportId == rid')).map
          (fun r => if r.reportId == rid then f r else r) := by
  unfold update_reports
  apply find?_map_pred
  intro a
  by_cases h : (a.reportId == rid) = true
  · simp [h, hf]
  · simp [h]

/-- Looking up the updated row itself yields the transformed row. -/
theorem find_test_updateTest (s : WorkflowStore) (tid : Nat) (u : MedicalTestUpdate)
    (t : MedicalTest) (h : find_test s tid = some t) :
    find_test (updateTest s tid u) tid = some (apply_test_update u t) := by
  unfold find_test at h ⊢
  have hbeq := List.find?_some h
  simp only [] at hbeq
  unfold updateTest
  dsimp only
  rw [update_tests_find? s.tests tid tid (apply_test_update u) (fun t => rfl), h]
  simp only [Option.map_some']
  rw [if_pos hbeq]

/-- Reduction of `generateReport` in the creating case: the test exists,
carries an image and no report yet. -/
theorem generateReport_create (s : WorkflowStore) (tid staffId : Nat)
    (f d : Option String) (t : MedicalTest) (img : Nat)
    (h : find_test s tid = some t) (himg : t.imageId = some img)
    (hrep : t.reportId = none) :
    generateReport s tid staffId f d =
      { s with
        reports := s.reports ++
          [{ reportId := s.nextReportId, patientId := t.patientId, staffId := staffId,
             imageId := t.imageId, findings := f, diagnosis := d,
             recommendations := none, status := report_status_for f d }],
        nextReportId := s.nextReportId + 1,
        tests := update_tests s.tests tid
          (fun t0 => { t0 with reportId := some s.nextReportId }) } := by
  unfold generateReport
  rw [h]
  dsimp only
  rw [himg, hrep]

/-- Reduction of `generateReport` in the updating case: the test exists,
carries an image and already records a report id. -/
theorem generateReport_update (s : WorkflowStore) (tid staffId : Nat)
    (f d : Option String) (t : MedicalTest) (img rid : Nat)
    (h : find_test s tid = some t) (himg : t.imageId = some img)
    (hrep : t.reportId = some rid) :
    generateReport s tid staffId f d =
      { s with
        reports := update_reports s.reports rid (fun r =>
          { r with findings := f, diagnosis := d,
                   status := report_status_for f d }) } := by
  unfold generateReport
  rw [h]
  dsimp only
  rw [himg, hrep]

/-! ## Claim theorems -/

/-- C2: for every (contact key, credential) pair that was registered and
whose identity remains active, `authenticate` (the login route) followed
by `verify` on the returned token succeeds and yields claims whose
identity id equals the registered identity's id. -/
theorem C2_register_authenticate_verify (s : AuthState)
    (name email password : String) (now now' : Nat)
    (hfresh : find_user_by_email s email = none)
    (hexp : now' < now + ACCESS_TOKEN_EXPIRE_MINUTES * 60) :
    ∃ (s' : AuthState) (uid : Nat) (tok : Token),
      register_patient s name email password = .ok (s', uid) ∧
      login_user s' now email password = .ok tok ∧
      verify_token s'.secret now' tok = .ok uid := by
  refine ⟨{ s with
            users := s.users ++
              [{ userId := s.nextUserId, name := name, email := email,
                 passwordHash := hash_password password, isActive := true,
                 userType := .patient }],
            nextUserId := s.nextUserId + 1 },
          s.nextUserId,
          create_access_token s.secret s.nextUserId .patient
            (now + ACCESS_TOKEN_EXPIRE_MINUTES * 60), ?_, ?_, ?_⟩
  · unfold register_patient
    rw [hfresh]
  · unfold login_user find_user_by_email
    dsimp only
    unfold find_user_by_email at hfresh
    rw [List.find?_append, hfresh]
    simp [verify_password]
  · unfold verify_token create_access_token
    simp [hexp]

/-- Witness for C2 at a concrete input: registering `ana@example.com`
into the empty identity store, then logging in and verifying. -/
theorem C2_witness :
    ∃ (s' : AuthState) (uid : Nat) (tok : Token),
      register_patient emptyAuth "Ana" "ana@example.com" "pw1" = .ok (s', uid) ∧
      login_user s' 0 "ana@example.com" "pw1" = .ok tok ∧
      verify_token s'.secret 60 tok = .ok uid :=
  C2_register_authenticate_verify emptyAuth "Ana" "ana@example.com" "pw1" 0 60
    (by decide) (by decide)

/-- C3: for an identity whose active flag is false, the login route fails
with an `AuthError` for every supplied credential - with 401 invalid
credentials when the credential mismatches, with 403 account deactivated
when it matches - so no token is issued. -/
theorem C3_deactivated_login_fails (s : AuthState) (email password : String)
    (now : Nat) (u : User) (h : find_user_by_email s email = some u)
    (hact : u.isActive = false) :
    ∃ e, login_user s now email password = .error e := by
  unfold login_user
  rw [h]
  dsimp only
  cases hv : verify_password password u.passwordHash
  · exact ⟨.invalidCredentials, by simp [hv]⟩
  · exact ⟨.accountDeactivated, by simp [hv, hact]⟩

/-- Witness for C3 at a concrete input: the deactivated patient of
`sampleDeactivatedAuth`, supplying the CORRECT credential. -/
theorem C3_witness :
    ∃ e, login_user sampleDeactivatedAuth 0 "ana@example.com" "pw1" = .error e :=
  C3_deactivated_login_fails sampleDeactivatedAuth "ana@example.com" "pw1" 0
    { userId := 1, name := "Ana", email := "ana@example.com",
      passwordHash := hash_password "pw1", isActive := false, userType := .patient }
    (by decide) rfl

/-- C9: verification is stateless - its result depends only on the
token's signature and expiry.  Two runs that differ only in whether
`setActive(identityId, false)` was called return the same result from
`verify`, and a token issued for subject `subj` stays valid on the
deactivated state exactly until its expiry. -/
theorem C9_verify_stateless (s : AuthState) (uid : Nat) (b : Bool) (now : Nat)
    (t : Token) (subj : Nat) (ut : UserType) (exp : Nat) :
    verify_token_route (set_active s uid b) now t = verify_token_route s now t ∧
    (verify_token_route (set_active s uid false) now
        (create_access_token s.secret subj ut exp) = .ok subj ↔ now < exp) := by
  constructor
  · rfl
  · show verify_token s.secret now (create_access_token s.secret subj ut exp) = .ok subj ↔ now < exp
    unfold verify_token create_access_token
    by_cases hlt : now < exp
    · simp [hlt]
    · simp [hlt]

/-- C1: after an image is associated with a test that was `to_be_taken`
(the radiologist's `handleUpload` records the returned image id and the
status transition in one test update), the test's status equals
`in_progress` and exactly one image id - the uploaded one - is attached. -/
theorem C1_image_association_sets_in_progress (s : WorkflowStore) (tid img : Nat)
    (t : MedicalTest) (h : find_test s tid = some t)
    (hstat : t.status = .scanToBeTaken) :
    ∃ t', find_test (handleUpload s tid img) tid = some t' ∧
      t'.status = .scanInProgress ∧ t'.imageId = some img := by
  exact ⟨apply_test_update
          { imageId := some (some img), status := some .scanInProgress } t,
        find_test_updateTest s tid _ t h, rfl, rfl⟩

/-- Witness for C1 at a concrete input: uploading image 7 for test 1 of
`sampleStore`, which is awaiting its scan. -/
theorem C1_witness :
    sampleTestToBeTaken.status = TestStatus.scanToBeTaken ∧
    ∃ t', find_test (handleUpload sampleStore 1 7) 1 = some t' ∧
      t'.status = .scanInProgress ∧ t'.imageId = some 7 :=
  ⟨rfl, C1_image_association_sets_in_progress sampleStore 1 7 sampleTestToBeTaken
    (by decide) rfl⟩

/-- C8: a `MedicalTest` created with some scan type X has, immediately
after creation, that scan type, status `to_be_taken`, and no report id
and no image id. -/
theorem C8_created_test_initial_state (s : WorkflowStore) (patientId doctorId : Nat)
    (ty : ScanType) (radiologistId appointmentId : Option Nat)
    (hfresh : ∀ t ∈ s.tests, t.testId ≠ s.nextTestId) :
    ∃ t', find_test (createTest s patientId doctorId ty radiologistId appointmentId).1
            (createTest s patientId doctorId ty radiologistId appointmentId).2
          = some t' ∧
      t'.testType = ty ∧ t'.status = .scanToBeTaken ∧
      t'.reportId = none ∧ t'.imageId = none := by
  refine ⟨{ testId := s.nextTestId, patientId := patientId, doctorId := doctorId,
            radiologistId := radiologistId, appointmentId := appointmentId,
            testType := ty, status := .scanToBeTaken,
            reportId := none, imageId := none }, ?_, rfl, rfl, rfl, rfl⟩
  unfold createTest find_test
  dsimp only
  rw [List.find?_append]
  have hnone : s.tests.find? (fun t => t.testId == s.nextTestId) = none :=
    List.find?_eq_none.mpr (fun t ht => by simpa using hfresh t ht)
  rw [hnone]
  simp

/-- Witness for C8 at a concrete input: creating a PET-scan test in
`sampleStore`. -/
theorem C8_witness :
    ∃ t', find_test (createTest sampleStore 10 20 .petScan none none).1
            (createTest sampleStore 10 20 .petScan none none).2 = some t' ∧
      t'.testType = .petScan ∧ t'.status = .scanToBeTaken ∧
      t'.reportId = none ∧ t'.imageId = none :=
  C8_created_test_initial_state sampleStore 10 20 .petScan none none (by decide)

/-- C5: `createBilling` succeeds for any `appointmentId`, including one
that does not exist in the Workflow store (the route performs no
existence check on the weak reference), and the resulting bill is
retrievable by its own bill id, with initial status `unpaid`. -/
theorem C5_createBilling_tolerates_orphan_appointment (ws : WorkflowStore)
    (bs : BillingStore) (pid aid : Nat) (procedureText : String) (cost : Rat)
    (horphan : ∀ a ∈ ws.appointments, a.appointmentId ≠ aid)
    (hfresh : ∀ b ∈ bs.bills, b.billingId ≠ bs.nextBillingId) :
    getBilling (createBilling bs pid (some aid) procedureText cost).1
        (createBilling bs pid (some aid) procedureText cost).2
      = some { billingId := bs.nextBillingId, patientId := pid,
               appointmentId := some aid, procedureDesc := procedureText,
               baseCost := cost, status := .unpaid, reportId := none } := by
  unfold createBilling getBilling
  dsimp only
  rw [List.find?_append]
  have hnone : bs.bills.find? (fun b => b.billingId == bs.nextBillingId) = none :=
    List.find?_eq_none.mpr (fun b hb => by simpa using hfresh b hb)
  rw [hnone]
  simp

/-- Witness for C5 at a concrete input: billing patient 10 for 150.00
against appointment id 999, which does not exist in `sampleStore`. -/
theorem C5_witness :
    (∀ a ∈ sampleStore.appointments, a.appointmentId ≠ 999) ∧
    getBilling (createBilling emptyBillingStore 10 (some 999) "CT Scan" 150).1
        (createBilling emptyBillingStore 10 (some 999) "CT Scan" 150).2
      = some { billingId := 1, patientId := 10, appointmentId := some 999,
               procedureDesc := "CT Scan", baseCost := 150,
               status := .unpaid, reportId := none } :=
  ⟨by decide,
   C5_createBilling_tolerates_orphan_appointment sampleStore emptyBillingStore
     10 999 "CT Scan" 150 (by decide) (by simp [emptyBillingStore])⟩

/-- A bill update whose payload does not carry a cost leaves the stored
cost unchanged. -/
theorem updateBilling_cost_of_none (bs : BillingStore) (bid : Nat)
    (u : BillingUpdate) (hc : u.baseCost = none) :
    billCost (updateBilling bs bid u) bid = billCost bs bid := by
  unfold billCost getBilling updateBilling
  dsimp only
  rw [find?_map_pred (fun b => if b.billingId == bid then apply_billing_update u b else b)
      (fun b => b.billingId == bid) ?_ bs.bills]
  · cases hfind : bs.bills.find? (fun b => b.billingId == bid) with
    | none => rfl
    | some b =>
      have hb := List.find?_some hfind
      simp only [] at hb
      have hbeq : b.billingId = bid := by simpa using hb
      simp [hbeq, apply_billing_update, hc]
  · intro a
    by_cases hb : (a.billingId == bid) = true
    · simp [hb, apply_billing_update]
    · simp [hb]

/-- C6 counterexample: the claim that every subsequent operation on a
paid bill leaves its cost unchanged is false on the code.  The paid
150.00 bill of `samplePaidStore` gets cost 999 after a bill update
carrying a new cost - the paid-cost invariant is a design contract that
the routes do not enforce. -/
theorem C6_counterexample :
    (getBilling samplePaidStore 1).map (fun b => b.status) = some .paid ∧
    billCost samplePaidStore 1 = some 150 ∧
    billCost (updateBilling samplePaidStore 1 { baseCost := some 999 }) 1 = some 999 :=
  ⟨rfl, rfl, rfl⟩

/-- C6 (amended): operations that do not supply a new cost - any bill
update whose payload has no cost field, and in particular the pay route
`markAsPaid` - leave the cost of every bill, including a paid one,
unchanged.  A bill update supplying a new cost does change it: the
paid-cost invariant is not mechanically enforced. -/
theorem C6_status_change_preserves_cost (bs : BillingStore) (bid : Nat)
    (u : BillingUpdate) (hc : u.baseCost = none) :
    billCost (updateBilling bs bid u) bid = billCost bs bid ∧
    billCost (markAsPaid bs bid) bid = billCost bs bid :=
  ⟨updateBilling_cost_of_none bs bid u hc,
   updateBilling_cost_of_none bs bid { status := some .paid } rfl⟩

/-- Witness for C6 at a concrete input: a cancel-status update and the
pay route on the paid bill of `samplePaidStore`. -/
theorem C6_witness :
    billCost (updateBilling samplePaidStore 1 { status := some .cancelled }) 1
      = billCost samplePaidStore 1 ∧
    billCost (markAsPaid samplePaidStore 1) 1 = billCost samplePaidStore 1 :=
  C6_status_change_preserves_cost samplePaidStore 1 { status := some .cancelled } rfl

/-- C7 counterexample: the claim that a test's status never moves
backward is false on the code.  Replacing the image of the completed
test of `sampleStoreDone` (`handleUpload`, which unconditionally sets
status `Scan in progress`) moves its status from `Scan Done` back to
`Scan in progress`; the edit-test form likewise accepts any of the three
status values. -/
theorem C7_counterexample :
    (find_test sampleStoreDone 1).map (fun t => t.status) = some .scanDone ∧
    (find_test (applyOp (.uploadImage 1 7) sampleStoreDone) 1).map (fun t => t.status)
      = some .scanInProgress :=
  ⟨rfl, rfl⟩

/-- C7 (amended): no Clinical Workflow operation deletes a test - every
test id resolvable before an operation is still resolvable afterwards.
Status monotonicity, by contrast, does not hold: statuses are
caller-supplied and unconstrained, so the update and image-association
operations can move a status backward. -/
theorem C7_no_operation_deletes_a_test (op : WorkflowOp) (s : WorkflowStore)
    (tid : Nat) (h : (find_test s tid).isSome) :
    (find_test (applyOp op s) tid).isSome := by
  obtain ⟨x, hx⟩ := Option.isSome_iff_exists.mp h
  cases op with
  | createTest p d ty r a =>
    unfold applyOp createTest find_test at *
    dsimp only
    rw [List.find?_append, hx]
    rfl
  | updateTest tid0 u =>
    unfold applyOp updateTest find_test at *
    dsimp only
    rw [update_tests_find? s.tests tid0 tid (apply_test_update u) (fun t => rfl), hx]
    rfl
  | uploadImage tid0 img =>
    unfold applyOp handleUpload updateTest find_test at *
    dsimp only
    rw [update_tests_find? s.tests tid0 tid
      (apply_test_update { imageId := some (some img), status := some .scanInProgress })
      (fun t => rfl), hx]
    rfl
  | markScanDone tid0 =>
    unfold applyOp markScanDone updateTest find_test at *
    dsimp only
    rw [update_tests_find? s.tests tid0 tid
      (apply_test_update { status := some .scanDone }) (fun t => rfl), hx]
    rfl
  | generateReport tid0 staffId f d =>
    show (find_test (generateReport s tid0 staffId f d) tid).isSome
    cases hf : find_test s tid0 with
    | none =>
      unfold generateReport
      rw [hf, h]
    | some t =>
      cases himg : t.imageId with
      | none =>
        unfold generateReport
        rw [hf]
        dsimp only
        rw [himg, h]
      | some img =>
        cases hrep : t.reportId with
        | some rid =>
          rw [generateReport_update s tid0 staffId f d t img rid hf himg hrep]
          unfold find_test at *
          dsimp only
          rw [hx]
          rfl
        | none =>
          rw [generateReport_create s tid0 staffId f d t img hf himg hrep]
          unfold find_test at *
          dsimp only
          rw [update_tests_find? s.tests tid0 tid
            (fun t0 => { t0 with reportId := some s.nextReportId }) (fun t => rfl), hx]
          rfl

/-- Witness for C7 at a concrete input: marking test 1 of `sampleStore`
done keeps it resolvable. -/
theorem C7_witness :
    (find_test sampleStore 1).isSome ∧
    (find_test (applyOp (.markScanDone 1) sampleStore) 1).isSome :=
  ⟨by decide, C7_no_operation_deletes_a_test (.markScanDone 1) sampleStore 1 (by decide)⟩

/-- Looking up the updated test row itself, list form. -/
theorem find?_update_tests_self (l : List MedicalTest) (tid : Nat)
    (f : MedicalTest → MedicalTest) (hf : ∀ x, (f x).testId = x.testId)
    (t : MedicalTest) (h : l.find? (fun x => x.testId == tid) = some t) :
    (update_tests l tid f).find? (fun x => x.testId == tid) = some (f t) := by
  rw [update_tests_find? l tid tid f hf, h]
  have hbeq := List.find?_some h
  simp only [] at hbeq
  simp only [Option.map_some']
  rw [if_pos hbeq]

/-- A targeted report update does not change how many rows carry any
given report id. -/
theorem length_filter_update_reports (l : List DiagnosisReport) (rid rid' : Nat)
    (f : DiagnosisReport → DiagnosisReport) (hf : ∀ r, (f r).reportId = r.reportId) :
    ((update_reports l rid f).filter (fun r => r.reportId == rid')).length
      = (l.filter (fun r => r.reportId == rid')).length := by
  unfold update_reports
  apply length_filter_map_pred
  intro a
  by_cases hb : (a.reportId == rid) = true
  · simp [hb, hf]
  · simp [hb]

/-- No report row of a store carries the fresh auto-increment id. -/
theorem filter_reports_fresh (s : WorkflowStore)
    (hfresh : ∀ r ∈ s.reports, r.reportId < s.nextReportId) :
    s.reports.filter (fun r => r.reportId == s.nextReportId) = [] :=
  List.filter_eq_nil_iff.mpr (fun r hr => by simp [Nat.ne_of_lt (hfresh r hr)])

/-- C4: for every test that carries an image id, calling `generateReport`
twice leaves exactly one report record carrying the test's report id, and
the report id stored on the test is the same after the first and the
second call - the second call updates the existing report rather than
creating a new one.  The store is assumed well-formed: report ids are
below the auto-increment counter, and a report id already recorded on the
test identifies exactly one report row. -/
theorem C4_generateReport_twice_updates_one_report (s : WorkflowStore)
    (tid staffId : Nat) (t : MedicalTest) (img : Nat) (f1 d1 f2 d2 : Option String)
    (h : find_test s tid = some t) (himg : t.imageId = some img)
    (hfresh : ∀ r ∈ s.reports, r.reportId < s.nextReportId)
    (hlink : ∀ rid, t.reportId = some rid → countReportsWith s rid = 1) :
    ∃ rid,
      testReportId (generateReport s tid staffId f1 d1) tid = some (some rid) ∧
      testReportId (generateReport (generateReport s tid staffId f1 d1) tid staffId f2 d2)
        tid = some (some rid) ∧
      countReportsWith (generateReport (generateReport s tid staffId f1 d1) tid staffId f2 d2)
        rid = 1 := by
  cases hrep : t.reportId with
  | some rid0 =>
    have e1 := generateReport_update s tid staffId f1 d1 t img rid0 h himg hrep
    have hft1 : find_test (generateReport s tid staffId f1 d1) tid = some t := by
      rw [e1]
      unfold find_test at h ⊢
      exact h
    have e2 := generateReport_update (generateReport s tid staffId f1 d1) tid staffId
      f2 d2 t img rid0 hft1 himg hrep
    have hreports1 : (generateReport s tid staffId f1 d1).reports
        = update_reports s.reports rid0 (fun r =>
            { r with findings := f1, diagnosis := d1,
                     status := report_status_for f1 d1 }) := by
      rw [e1]
    refine ⟨rid0, ?_, ?_, ?_⟩
    · unfold testReportId
      rw [hft1]
      simp [hrep]
    · unfold testReportId
      have hft2 : find_test (generateReport (generateReport s tid staffId f1 d1)
          tid staffId f2 d2) tid = some t := by
        rw [e2]
        unfold find_test at hft1 ⊢
        exact hft1
      rw [hft2]
      simp [hrep]
    · rw [e2]
      unfold countReportsWith
      dsimp only
      rw [length_filter_update_reports (generateReport s tid staffId f1 d1).reports
            rid0 rid0 (fun r =>
              { r with findings := f2, diagnosis := d2,
                       status := report_status_for f2 d2 }) (fun r => rfl),
          hreports1,
          length_filter_update_reports s.reports rid0 rid0 (fun r =>
              { r with findings := f1, diagnosis := d1,
                       status := report_status_for f1 d1 }) (fun r => rfl)]
      have := hlink rid0 hrep
      unfold countReportsWith at this
      exact this
  | none =>
    have e1 := generateReport_create s tid staffId f1 d1 t img h himg hrep
    have hft1 : find_test (generateReport s tid staffId f1 d1) tid
        = some { t with reportId := some s.nextReportId } := by
      rw [e1]
      unfold find_test at h ⊢
      exact find?_update_tests_self s.tests tid
        (fun t0 => { t0 with reportId := some s.nextReportId }) (fun x => rfl) t h
    have e2 := generateReport_update (generateReport s tid staffId f1 d1) tid staffId
      f2 d2 { t with reportId := some s.nextReportId } img s.nextReportId hft1 himg rfl
    have hreports1 : (generateReport s tid staffId f1 d1).reports
        = s.reports ++
          [{ reportId := s.nextReportId, patientId := t.patientId, staffId := staffId,
             imageId := t.imageId, findings := f1, diagnosis := d1,
             recommendations := none, status := report_status_for f1 d1 }] := by
      rw [e1]
    refine ⟨s.nextReportId, ?_, ?_, ?_⟩
    · unfold testReportId
      rw [hft1]
      rfl
    · unfold testReportId
      have hft2 : find_test (generateReport (generateReport s tid staffId f1 d1)
          tid staffId f2 d2) tid = some { t with reportId := some s.nextReportId } := by
        rw [e2]
        unfold find_test at hft1 ⊢
        exact hft1
      rw [hft2]
      rfl
    · rw [e2]
      unfold countReportsWith
      dsimp only
      rw [length_filter_update_reports (generateReport s tid staffId f1 d1).reports
            s.nextReportId s.nextReportId (fun r =>
              { r with findings := f2, diagnosis := d2,
                       status := report_status_for f2 d2 }) (fun r => rfl),
          hreports1,
          List.filter_append, List.length_append, filter_reports_fresh s hfresh]
      simp

/-- Witness for C4 at a concrete input: generating a report twice for
test 1 of `sampleStoreInProgress`, which carries image 7 and no report. -/
theorem C4_witness :
    ∃ rid,
      testReportId (generateReport sampleStoreInProgress 1 20 (some "f1") (some "d1"))
        1 = some (some rid) ∧
      testReportId (generateReport
        (generateReport sampleStoreInProgress 1 20 (some "f1") (some "d1"))
        1 20 (some "f2") (some "d2")) 1 = some (some rid) ∧
      countReportsWith (generateReport
        (generateReport sampleStoreInProgress 1 20 (some "f1") (some "d1"))
        1 20 (some "f2") (some "d2")) rid = 1 :=
  C4_generateReport_twice_updates_one_report sampleStoreInProgress 1 20
    { testId := 1, patientId := 10, doctorId := 20, radiologistId := some 30,
      appointmentId := some 5, testType := .ctScan, status := .scanInProgress,
      reportId := none, imageId := some 7 }
    7 (some "f1") (some "d1") (some "f2") (some "d2")
    (by decide) rfl (by simp [sampleStoreInProgress, sampleStore, handleUpload, updateTest])
    (fun rid hcontra => Option.noConfusion hcontra)

/-- Python truthiness of an optional string holds exactly for a supplied,
non-empty text. -/
theorem py_truthy_iff (o : Option String) :
    py_truthy o = true ↔ ∃ str, o = some str ∧ str ≠ "" := by
  cases o with
  | none => simp [py_truthy]
  | some s =>
    unfold py_truthy
    rw [Bool.not_eq_true', ← Bool.not_eq_true]
    simp [not_congr (String.isEmpty_iff s)]

/-- The report-status selection yields `finalized` exactly for a supplied
non-empty findings or diagnosis text, and `pending` otherwise. -/
theorem report_status_spec (f d : Option String) :
    (report_status_for f d = .finalized ↔
      (∃ s0, f = some s0 ∧ s0 ≠ "") ∨ (∃ s0, d = some s0 ∧ s0 ≠ "")) ∧
    (report_status_for f d = .pending ↔
      ¬ ((∃ s0, f = some s0 ∧ s0 ≠ "") ∨ (∃ s0, d = some s0 ∧ s0 ≠ ""))) := by
  unfold report_status_for
  by_cases hc : (py_truthy f || py_truthy d) = true
  · have hspec : (∃ s0, f = some s0 ∧ s0 ≠ "") ∨ (∃ s0, d = some s0 ∧ s0 ≠ "") := by
      rcases Bool.or_eq_true_iff.mp hc with h | h
      · exact Or.inl ((py_truthy_iff f).mp h)
      · exact Or.inr ((py_truthy_iff d).mp h)
    rw [if_pos hc]
    simp [hspec]
  · have hspec : ¬ ((∃ s0, f = some s0 ∧ s0 ≠ "") ∨ (∃ s0, d = some s0 ∧ s0 ≠ "")) := by
      intro hor
      apply hc
      rcases hor with h | h
      · exact Bool.or_eq_true_iff.mpr (Or.inl ((py_truthy_iff f).mpr h))
      · exact Bool.or_eq_true_iff.mpr (Or.inr ((py_truthy_iff d).mpr h))
    rw [if_neg hc]
    simp [hspec]

/-- Looking up the updated report row itself, list form. -/
theorem find?_update_reports_self (l : List DiagnosisReport) (rid : Nat)
    (f : DiagnosisReport → DiagnosisReport) (hf : ∀ x, (f x).reportId = x.reportId)
    (r : DiagnosisReport) (h : l.find? (fun x => x.reportId == rid) = some r) :
    (update_reports l rid f).find? (fun x => x.reportId == rid) = some (f r) := by
  rw [update_reports_find? l rid rid f hf, h]
  have hbeq := List.find?_some h
  simp only [] at hbeq
  simp only [Option.map_some']
  rw [if_pos hbeq]

/-- C10: every invocation of the report-generation operation that creates
or updates a report stores the supplied findings and diagnosis, and the
stored status is `finalized` exactly when a non-empty findings or
diagnosis text was supplied with the call, and `pending` otherwise.  The
store is assumed well-formed as in C4; a report id already recorded on
the test must resolve to a report row. -/
theorem C10_report_generation_status (s : WorkflowStore) (tid staffId : Nat)
    (t : MedicalTest) (img : Nat) (findings diagnosis : Option String)
    (h : find_test s tid = some t) (himg : t.imageId = some img)
    (hfresh : ∀ r ∈ s.reports, r.reportId < s.nextReportId)
    (hlink : ∀ rid, t.reportId = some rid → (find_report s rid).isSome) :
    ∃ (rid : Nat) (rep : DiagnosisReport),
      testReportId (generateReport s tid staffId findings diagnosis) tid
        = some (some rid) ∧
      find_report (generateReport s tid staffId findings diagnosis) rid = some rep ∧
      rep.findings = findings ∧ rep.diagnosis = diagnosis ∧
      (rep.status = .finalized ↔
        (∃ s0, findings = some s0 ∧ s0 ≠ "") ∨ (∃ s0, diagnosis = some s0 ∧ s0 ≠ "")) ∧
      (rep.status = .pending ↔
        ¬ ((∃ s0, findings = some s0 ∧ s0 ≠ "") ∨ (∃ s0, diagnosis = some s0 ∧ s0 ≠ ""))) := by
  cases hrep : t.reportId with
  | none =>
    have e1 := generateReport_create s tid staffId findings diagnosis t img h himg hrep
    refine ⟨s.nextReportId,
      { reportId := s.nextReportId, patientId := t.patientId, staffId := staffId,
        imageId := t.imageId, findings := findings, diagnosis := diagnosis,
        recommendations := none,
        status := report_status_for findings diagnosis },
      ?_, ?_, rfl, rfl,
      (report_status_spec findings diagnosis).1,
      (report_status_spec findings diagnosis).2⟩
    · unfold testReportId
      have hft1 : find_test (generateReport s tid staffId findings diagnosis) tid
          = some { t with reportId := some s.nextReportId } := by
        rw [e1]
        unfold find_test at h ⊢
        exact find?_update_tests_self s.tests tid
          (fun t0 => { t0 with reportId := some s.nextReportId }) (fun x => rfl) t h
      rw [hft1]
      rfl
    · rw [e1]
      unfold find_report
      dsimp only
      rw [List.find?_append]
      have hnone : s.reports.find? (fun r => r.reportId == s.nextReportId) = none :=
        List.find?_eq_none.mpr (fun r hr => by simp [Nat.ne_of_lt (hfresh r hr)])
      rw [hnone]
      simp
  | some rid0 =>
    have e1 := generateReport_update s tid staffId findings diagnosis t img rid0 h himg hrep
    obtain ⟨r0, hr0⟩ := Option.isSome_iff_exists.mp (hlink rid0 hrep)
    refine ⟨rid0,
      { r0 with findings := findings, diagnosis := diagnosis,
                status := report_status_for findings diagnosis },
      ?_, ?_, rfl, rfl,
      (report_status_spec findings diagnosis).1,
      (report_status_spec findings diagnosis).2⟩
    · unfold testReportId
      have hft1 : find_test (generateReport s tid staffId findings diagnosis) tid
          = some t := by
        rw [e1]
        unfold find_test at h ⊢
        exact h
      rw [hft1]
      simp [hrep]
    · rw [e1]
      unfold find_report at hr0 ⊢
      dsimp only
      exact find?_update_reports_self s.reports rid0
        (fun r => { r with findings := findings, diagnosis := diagnosis, status := report_status_for findings diagnosis })
        (fun x => rfl) r0 hr0

/-- Witness for C10 at a concrete input: generating a report with
non-empty findings for test 1 of `sampleStoreInProgress`. -/
theorem C10_witness :
    ∃ (rid : Nat) (rep : DiagnosisReport),
      testReportId (generateReport sampleStoreInProgress 1 20
        (some "no fracture") (some "normal")) 1 = some (some rid) ∧
      find_report (generateReport sampleStoreInProgress 1 20
        (some "no fracture") (some "normal")) rid = some rep ∧
      rep.findings = some "no fracture" ∧ rep.diagnosis = some "normal" ∧
      (rep.status = .finalized ↔
        (∃ s0, (some "no fracture" : Option String) = some s0 ∧ s0 ≠ "") ∨
        (∃ s0, (some "normal" : Option String) = some s0 ∧ s0 ≠ "")) ∧
      (rep.status = .pending ↔
        ¬ ((∃ s0, (some "no fracture" : Option String) = some s0 ∧ s0 ≠ "") ∨
           (∃ s0, (some "normal" : Option String) = some s0 ∧ s0 ≠ ""))) :=
  C10_report_generation_status sampleStoreInProgress 1 20
    { testId := 1, patientId := 10, doctorId := 20, radiologistId := some 30,
      appointmentId := some 5, testType := .ctScan, status := .scanInProgress,
      reportId := none, imageId := some 7 }
    7 (some "no fracture") (some "normal")
    (by decide) rfl (by simp [sampleStoreInProgress, sampleStore, handleUpload, updateTest])
    (fun rid hcontra => Option.noConfusion hcontra)

end HealthBridge
